import Mathlib

set_option maxRecDepth 40000

/-!
Shallow embedding of the Azoteq IQS269A capacitive touch controller driver
(`drivers/input/misc/iqs269a.c`): the register data model, the ATI parameter
accessors, the devicetree mask/value parsers, the full-image device
initialization, and the status-snapshot decode engine (`iqs269_report`).

Machine integers are modelled as `Nat`; 16-bit registers are kept within
`[0, 65536)` by the masking the source itself performs.  Error codes are the
driver's own (`-EINVAL = -22`); fallible operations return the error code
together with the (possibly unchanged) state, mirroring the C control flow
where validation precedes every mutation.
-/

namespace IQS269

/-- Per-channel register block (`struct iqs269_ch_reg`). -/
structure ChReg where
  rx_enable : Nat
  tx_enable : Nat
  engine_a : Nat
  engine_b : Nat
  ati_comp : Nat
  thresh : List Nat
  hyst : Nat
  assoc_select : Nat
  assoc_weight : Nat
deriving Repr, DecidableEq

/-- System register block (`struct iqs269_sys_reg`); the eight channel blocks
are indexed by `Fin 8` (`IQS269_NUM_CH = 8`). -/
structure SysReg where
  general : Nat
  active : Nat
  filter : Nat
  reseed : Nat
  event_mask : Nat
  rate_np : Nat
  rate_lp : Nat
  rate_ulp : Nat
  timeout_pwr : Nat
  timeout_rdy : Nat
  timeout_lta : Nat
  misc_a : Nat
  misc_b : Nat
  blocking : Nat
  padding : Nat
  slider_select : List Nat
  timeout_tap : Nat
  timeout_swipe : Nat
  thresh_swipe : Nat
  redo_ati : Nat
  ch_reg : Fin 8 → ChReg

/-- Hall-effect switch descriptor (`struct iqs269_switch_desc`). -/
structure SwitchDesc where
  code : Nat
  enabled : Bool
deriving Repr, DecidableEq

/-- The retained driver state (`struct iqs269_private`, the fields the core
logic reads and writes): the register image, the key/switch/gesture code
tables, the OTP option, the firmware number and the ATI staleness flag. -/
structure DeviceState where
  sys_reg : SysReg
  switches : List SwitchDesc
  keycode : List Nat
  sl_code : List (List Nat)
  otp_option : Nat
  fw_num : Nat
  hall_enable : Bool
  ati_current : Bool

/-- Status snapshot (`struct iqs269_flags`): 16-bit system word, gesture byte
and the four per-channel state bytes (prox, direction, touch, deep). -/
structure Flags where
  system : Nat
  gesture : Nat
  states : List Nat
deriving Repr, DecidableEq

/-- Slider operating mode (`enum iqs269_slider_id`). -/
inductive SliderId where
  | noneSl
  | keySl
  | rawSl
deriving Repr, DecidableEq

/-- Derived slider operating mode (`iqs269_slider_type`): slider 1 is
unavailable when the OTP touch-and-hold option (`BIT(7)`) is set; a slider
with no selected channels is `noneSl`; one with any gesture keycode other
than `KEY_RESERVED = 0` is `keySl`; otherwise `rawSl`. -/
def iqs269_slider_type (s : DeviceState) (slider_num : Nat) : SliderId :=
  if slider_num ≠ 0 ∧ s.otp_option &&& 128 ≠ 0 then .noneSl
  else if s.sys_reg.slider_select.getD slider_num 0 = 0 then .noneSl
  else if (s.sl_code.getD slider_num []).any (· ≠ 0) then .keySl
  else .rawSl

/-- ATI mode setter (`iqs269_ati_mode_set`): validates the channel number and
the 2-bit mode, then read-modify-writes `engine_a` (mask `GENMASK(9, 8)`,
whose 16-bit complement is `0xFCFF`) and marks ATI stale. -/
def iqs269_ati_mode_set (s : DeviceState) (ch_num mode : Nat) :
    Int × DeviceState :=
  if h : ch_num < 8 then
    if mode > 3 then (-22, s)
    else
      let i : Fin 8 := ⟨ch_num, h⟩
      let cr := s.sys_reg.ch_reg i
      let engine_a := (cr.engine_a &&& 0xFCFF) ||| (mode <<< 8)
      (0, { s with
              sys_reg := { s.sys_reg with
                ch_reg := Function.update s.sys_reg.ch_reg i
                  { cr with engine_a := engine_a } }
              ati_current := false })
  else (-22, s)

/-- ATI mode getter (`iqs269_ati_mode_get`): extracts bits 9..8 of
`engine_a`; the state is returned unchanged. -/
def iqs269_ati_mode_get (s : DeviceState) (ch_num : Nat) :
    Int × DeviceState × Option Nat :=
  if h : ch_num < 8 then
    let engine_a := (s.sys_reg.ch_reg ⟨ch_num, h⟩).engine_a
    (0, s, some ((engine_a &&& 0x300) >>> 8))
  else (-22, s, none)

/-- ATI base setter (`iqs269_ati_base_set`): maps {75, 100, 150, 200} onto
the four bit patterns of `GENMASK(7, 6)` (16-bit complement `0xFF3F`), fails
with `-EINVAL` otherwise, and marks ATI stale on success. -/
def iqs269_ati_base_set (s : DeviceState) (ch_num base : Nat) :
    Int × DeviceState :=
  if h : ch_num < 8 then
    let bits : Option Nat :=
      if base = 75 then some 0x00
      else if base = 100 then some 0x40
      else if base = 150 then some 0x80
      else if base = 200 then some 0xC0
      else none
    match bits with
    | none => (-22, s)
    | some b =>
      let i : Fin 8 := ⟨ch_num, h⟩
      let cr := s.sys_reg.ch_reg i
      let engine_b := (cr.engine_b &&& 0xFF3F) ||| b
      (0, { s with
              sys_reg := { s.sys_reg with
                ch_reg := Function.update s.sys_reg.ch_reg i
                  { cr with engine_b := engine_b } }
              ati_current := false })
  else (-22, s)

/-- ATI base getter (`iqs269_ati_base_get`): decodes bits 7..6 of
`engine_b` back to {75, 100, 150, 200}; the state is returned unchanged. -/
def iqs269_ati_base_get (s : DeviceState) (ch_num : Nat) :
    Int × DeviceState × Option Nat :=
  if h : ch_num < 8 then
    let engine_b := (s.sys_reg.ch_reg ⟨ch_num, h⟩).engine_b
    match engine_b &&& 0xC0 with
    | 0x00 => (0, s, some 75)
    | 0x40 => (0, s, some 100)
    | 0x80 => (0, s, some 150)
    | 0xC0 => (0, s, some 200)
    | _ => (-22, s, none)
  else (-22, s, none)

/-- ATI target setter (`iqs269_ati_target_set`): validates the channel number
and `target ≤ 2016`, then stores `target / 32` into bits 5..0 of `engine_b`
(16-bit complement of the mask is `0xFFC0`) and marks ATI stale. -/
def iqs269_ati_target_set (s : DeviceState) (ch_num target : Nat) :
    Int × DeviceState :=
  if h : ch_num < 8 then
    if target > 2016 then (-22, s)
    else
      let i : Fin 8 := ⟨ch_num, h⟩
      let cr := s.sys_reg.ch_reg i
      let engine_b := (cr.engine_b &&& 0xFFC0) ||| (target / 32)
      (0, { s with
              sys_reg := { s.sys_reg with
                ch_reg := Function.update s.sys_reg.ch_reg i
                  { cr with engine_b := engine_b } }
              ati_current := false })
  else (-22, s)

/-- ATI target getter (`iqs269_ati_target_get`): returns bits 5..0 of
`engine_b` times 32; the state is returned unchanged. -/
def iqs269_ati_target_get (s : DeviceState) (ch_num : Nat) :
    Int × DeviceState × Option Nat :=
  if h : ch_num < 8 then
    let engine_b := (s.sys_reg.ch_reg ⟨ch_num, h⟩).engine_b
    (0, s, some ((engine_b &&& 0x3F) * 32))
  else (-22, s, none)

/-- Loop body of `iqs269_parse_mask`: each pin index must be below
`IQS269_NUM_CH = 8`, else `-EINVAL`; valid indices are ORed in as `BIT(v)`. -/
def iqs269_parse_mask_loop : List Nat → Nat → Except Int Nat
  | [], mask => .ok mask
  | v :: rest, mask =>
    if v ≥ 8 then .error (-22)
    else iqs269_parse_mask_loop rest (mask ||| (1 <<< v))

/-- Encoder of an RX/TX pin-index list (`iqs269_parse_mask`) for a property
that is present: more than 8 entries fail with `-EINVAL`; otherwise the mask
is rebuilt from zero by the loop. -/
def iqs269_parse_mask (vals : List Nat) : Except Int Nat :=
  if vals.length > 8 then .error (-22)
  else iqs269_parse_mask_loop vals 0

/-- Touch-hysteresis write from the `iqs269_parse_chan` event loop: the low
nibble (`GENMASK(3, 0)`, u8 complement `0xF0`) is replaced, the high nibble
kept. -/
def iqs269_hyst_set_touch (hyst v : Nat) : Nat := (hyst &&& 0xF0) ||| v

/-- Deep-touch-hysteresis write from the `iqs269_parse_chan` event loop: the
high nibble (`GENMASK(7, 4)`, u8 complement `0x0F`) is replaced by `v << 4`,
the low nibble kept. -/
def iqs269_hyst_set_deep (hyst v : Nat) : Nat := (hyst &&& 0x0F) ||| (v <<< 4)

/-- Firmware-revision scale for tap/swipe gesture timeouts
(`iqs269_parse_prop`): `scale = 4` on silicon older than
`IQS269_VER_INFO_FW_NUM_3 = 0x10`, else 1. -/
def iqs269_tap_swipe_scale (fw_num : Nat) : Nat :=
  if fw_num < 0x10 then 4 else 1

/-- Encoding of `azoteq,timeout-tap-ms` (`iqs269_parse_prop`): bounded by
`IQS269_TIMEOUT_TAP_MS_MAX / scale = 4080 / scale`, stored as
`val / (16 / scale)`. -/
def iqs269_timeout_tap_encode (fw_num val : Nat) : Except Int Nat :=
  let scale := iqs269_tap_swipe_scale fw_num
  if val > 4080 / scale then .error (-22)
  else .ok (val / (16 / scale))

/-- Encoding of `azoteq,timeout-swipe-ms` (`iqs269_parse_prop`): bounded by
`IQS269_TIMEOUT_SWIPE_MS_MAX / scale = 4080 / scale`, stored as
`val / (16 / scale)`. -/
def iqs269_timeout_swipe_encode (fw_num val : Nat) : Except Int Nat :=
  let scale := iqs269_tap_swipe_scale fw_num
  if val > 4080 / scale then .error (-22)
  else .ok (val / (16 / scale))

/-- Encoding of `azoteq,thresh-swipe` (`iqs269_parse_prop`): bounded by
`IQS269_THRESH_SWIPE_MAX = 255` and stored verbatim; the firmware number is
threaded through for comparison across revisions but the source applies no
scale here. -/
def iqs269_thresh_swipe_encode (_fw_num val : Nat) : Except Int Nat :=
  if val > 255 then .error (-22)
  else .ok val

/-- Outbound bus operations performed by `iqs269_dev_init` and
`iqs269_report`, in the order the driver issues them. -/
inductive BusOp where
  | writeTws
  | writeHallUI (enable : Bool)
  | writeImage (img : SysReg)
  | readSliderX

/-- Full-image device (re-)initialization (`iqs269_dev_init`): the optional
TWS workaround write (OTP option `0xD0` on firmware older than `0x10`), the
Hall UI enable update, then the wholesale write of the retained register
image; the first bus failure aborts with its error code and without marking
ATI current.  Returns the issued operations, the error code and the state. -/
def iqs269_dev_init (busErr : BusOp → Option Int) (s : DeviceState) :
    List BusOp × Int × DeviceState :=
  let rest : List BusOp → List BusOp × Int × DeviceState := fun ops =>
    let hallOp := BusOp.writeHallUI s.hall_enable
    match busErr hallOp with
    | some e => (ops ++ [hallOp], e, s)
    | none =>
      let imgOp := BusOp.writeImage s.sys_reg
      match busErr imgOp with
      | some e => (ops ++ [hallOp, imgOp], e, s)
      | none => (ops ++ [hallOp, imgOp], 0, { s with ati_current := true })
  if s.otp_option = 0xD0 ∧ s.fw_num < 0x10 then
    match busErr BusOp.writeTws with
    | some e => ([BusOp.writeTws], e, s)
    | none => rest [BusOp.writeTws]
  else rest []

/-- Input devices the decode engine reports to. -/
inductive Dev where
  | keypad
  | slider0
  | slider1
deriving Repr, DecidableEq

/-- Input events emitted by the decode engine, in emission order:
`input_report_key`, `input_report_switch`, `input_report_abs (ABS_X)` and
`input_sync`. -/
inductive Event where
  | key (d : Dev) (code : Nat) (pressed : Bool)
  | sw (code : Nat) (active : Bool)
  | abs (d : Dev) (x : Nat)
  | sync (d : Dev)
deriving Repr, DecidableEq

/-- Per-event decode descriptor (`iqs269_events`): the state-byte offset and
the direction polarity. -/
structure EventDesc where
  st_offs : Nat
  dir_up : Bool
deriving Repr, DecidableEq

/-- The fixed event table (`iqs269_events`): prox/touch/deep, down then up;
state offsets are PROX = 0, DIR = 1, TOUCH = 2, DEEP = 3. -/
def iqs269_events : List EventDesc :=
  [⟨0, false⟩, ⟨0, true⟩, ⟨2, false⟩, ⟨2, true⟩, ⟨3, false⟩, ⟨3, true⟩]

/-- The slider device handle for slider `i`. -/
def sliderDev (i : Nat) : Dev := if i = 0 then .slider0 else .slider1

/-- Events emitted for slider `i` in one pass of the slider loop of
`iqs269_report`.  The gesture byte is shifted right by `4 * i` (the loop
shifts cumulatively by `i * IQS269_NUM_GESTURES`).  In gesture-key mode all
four gesture codes are reported from the gesture bits; if any momentary
gesture (tap `BIT(0)`, flick `BIT(2)`/`BIT(3)`, mask 13) fired, a sync and a
complementary release of every code except hold follow.  In raw mode the
touch state is the touch byte masked by the slider's channel selection;
`BTN_TOUCH = 330` and, only when touched, `ABS_X` are reported. -/
def iqs269_slider_events (s : DeviceState) (sliderX : List Nat)
    (flags : Flags) (i : Nat) : List Event :=
  let g := flags.gesture >>> (4 * i)
  let d := sliderDev i
  match iqs269_slider_type s i with
  | .noneSl => []
  | .keySl =>
    let codes := s.sl_code.getD i []
    let main := (List.range 4).map
      (fun j => Event.key d (codes.getD j 0) (g &&& (1 <<< j) ≠ 0))
    if g &&& 13 ≠ 0 then
      main ++ [Event.sync d] ++
        ((List.range 4).filterMap (fun j =>
          if j = 1 then none else some (Event.key d (codes.getD j 0) false)))
        ++ [Event.sync d]
    else main ++ [Event.sync d]
  | .rawSl =>
    let st := flags.states.getD 2 0 &&& s.sys_reg.slider_select.getD i 0
    [Event.key d 330 (st ≠ 0)] ++
      (if st ≠ 0 then [Event.abs d (sliderX.getD i 0)] else []) ++
      [Event.sync d]

/-- Events emitted for channel `j` of logical event `i` in the keypad loop of
`iqs269_report`: channel 7 (`IQS269_CHx_HALL_ACTIVE`) reports the switch when
Hall sensing is enabled and the switch is mapped, channels 7 and 6
(`IQS269_CHx_HALL_INACTIVE`) are skipped when Hall sensing is enabled, and
every other case reports the channel's keycode against `state & BIT(j)`. -/
def iqs269_keypad_event_chan (s : DeviceState) (i j state : Nat) :
    List Event :=
  let keycode := s.keycode.getD (i * 8 + j) 0
  let sw := s.switches.getD i ⟨0, false⟩
  if j = 7 then
    (if s.hall_enable ∧ sw.enabled then
       [Event.sw sw.code (state &&& 128 ≠ 0)]
     else []) ++
    (if s.hall_enable then []
     else [Event.key .keypad keycode (state &&& 128 ≠ 0)])
  else if j = 6 then
    if s.hall_enable then []
    else [Event.key .keypad keycode (state &&& 64 ≠ 0)]
  else [Event.key .keypad keycode (state &&& (1 <<< j) ≠ 0)]

/-- Events of the keypad loop of `iqs269_report`: for each of the six logical
events, the direction byte (inverted for the down variants, u8 complement
via xor 255) masks the event's state byte, and all eight channels are
scanned. -/
def iqs269_keypad_events (s : DeviceState) (flags : Flags) : List Event :=
  (List.range 6).flatMap (fun i =>
    let desc := (iqs269_events.getD i ⟨0, false⟩)
    let dir0 := flags.states.getD 1 0
    let dir_mask := if desc.dir_up then dir0 else dir0 ^^^ 255
    let state := flags.states.getD desc.st_offs 0 &&& dir_mask
    (List.range 8).flatMap (fun j => iqs269_keypad_event_chan s i j state))

/-- Status-snapshot decode engine (`iqs269_report`), given a successfully
read snapshot.  A set `SHOW_RESET` bit (`BIT(15)`) re-runs `iqs269_dev_init`
and forwards its result, emitting nothing.  A set `IN_ATI` bit (`BIT(10)`)
ends the cycle silently.  Otherwise, if either slider is in raw mode, the
coordinate registers are read (a failure aborts with no events); then the
slider events, the keypad events and the final keypad sync are emitted.
Returns the bus operations, the emitted events, the return code and the
resulting state. -/
def iqs269_report (busErr : BusOp → Option Int) (sliderX : List Nat)
    (s : DeviceState) (flags : Flags) :
    List BusOp × List Event × Int × DeviceState :=
  if flags.system &&& 32768 ≠ 0 then
    let r := iqs269_dev_init busErr s
    (r.1, [], r.2.1, r.2.2)
  else if flags.system &&& 1024 ≠ 0 then ([], [], 0, s)
  else
    let needRaw := iqs269_slider_type s 0 = .rawSl ∨
      iqs269_slider_type s 1 = .rawSl
    if needRaw then
      match busErr BusOp.readSliderX with
      | some e => ([BusOp.readSliderX], [], e, s)
      | none =>
        ([BusOp.readSliderX],
         iqs269_slider_events s sliderX flags 0 ++
           iqs269_slider_events s sliderX flags 1 ++
           iqs269_keypad_events s flags ++ [Event.sync .keypad],
         0, s)
    else
      ([],
       iqs269_slider_events s sliderX flags 0 ++
         iqs269_slider_events s sliderX flags 1 ++
         iqs269_keypad_events s flags ++ [Event.sync .keypad],
       0, s)

/-- Values reported for key `code` on device `d`, in order. -/
def keyVals (evs : List Event) (d : Dev) (code : Nat) : List Bool :=
  evs.filterMap (fun e =>
    match e with
    | .key d' c b => if d' = d ∧ c = code then some b else none
    | _ => none)

/-- Whether a bus operation is the wholesale register-image write. -/
def isImageWrite : BusOp → Bool
  | .writeImage _ => true
  | _ => false

/-- Sample channel register block with all fields zero. -/
def ch0 : ChReg := ⟨0, 0, 0, 0, 0, [0, 0, 0], 0, 0, 0⟩

/-- Sample system register block: channel 0 assigned to slider 0, everything
else zero. -/
def sysReg0 : SysReg :=
  { general := 0, active := 1, filter := 0, reseed := 0, event_mask := 0
    rate_np := 0, rate_lp := 0, rate_ulp := 0, timeout_pwr := 0
    timeout_rdy := 0, timeout_lta := 0, misc_a := 0, misc_b := 0
    blocking := 0, padding := 0, slider_select := [1, 0], timeout_tap := 0
    timeout_swipe := 0, thresh_swipe := 0, redo_ati := 0
    ch_reg := fun _ => ch0 }

/-- Sample device state: slider 0 in gesture-key mode with distinct codes
30, 31, 32, 33 for tap, hold, flick-positive and flick-negative. -/
def state0 : DeviceState :=
  { sys_reg := sysReg0, switches := List.replicate 6 ⟨0, false⟩
    keycode := List.replicate 48 0
    sl_code := [[30, 31, 32, 33], [0, 0, 0, 0]]
    otp_option := 0, fw_num := 2, hall_enable := false, ati_current := false }

/-- Sample bus on which every operation succeeds. -/
def busOk : BusOp → Option Int := fun _ => none

section Lemmas

/-- Clearing a field with mask `m` and ORing in a value `t` confined to the
disjoint mask `c` leaves exactly `t` under `c`. -/
theorem and_or_mask_cancel {m c : Nat} (x t : Nat) (h1 : m &&& c = 0)
    (h2 : t &&& c = t) : ((x &&& m) ||| t) &&& c = t := by
  rw [Nat.and_distrib_right, Nat.and_assoc, h1, Nat.and_zero, Nat.zero_or, h2]

/-- Masking with 63 is reduction mod 64. -/
theorem and_63_eq_mod (t : Nat) : t &&& 63 = t % 64 := by
  have h2 := Nat.and_pow_two_sub_one_eq_mod t 6
  norm_num at h2
  exact h2

/-- A value below 64 is fixed by masking with 63. -/
theorem and_63_of_lt {t : Nat} (h : t < 64) : t &&& 63 = t := by
  rw [and_63_eq_mod, Nat.mod_eq_of_lt h]

/-- A value below 16 is fixed by masking with 15. -/
theorem and_15_of_lt {t : Nat} (h : t < 16) : t &&& 15 = t := by
  have h2 := Nat.and_pow_two_sub_one_eq_mod t 4
  norm_num at h2
  rw [h2, Nat.mod_eq_of_lt h]

/-- Masking with 255 is reduction mod 256. -/
theorem and_255_eq_mod (t : Nat) : t &&& 255 = t % 256 := by
  have h2 := Nat.and_pow_two_sub_one_eq_mod t 8
  norm_num at h2
  exact h2

/-- Masking any value with the two-bit field `GENMASK(7, 6) = 192` lands on
one of the four ATI base bit patterns, so `iqs269_ati_base_get` never
reaches its default branch. -/
theorem and_192_cases (x : Nat) :
    x &&& 192 = 0 ∨ x &&& 192 = 64 ∨ x &&& 192 = 128 ∨ x &&& 192 = 192 := by
  have h1 : (255 : Nat) &&& 192 = 192 := by decide
  have hx : x &&& 192 = x % 256 &&& 192 := by
    calc x &&& 192 = x &&& (255 &&& 192) := by rw [h1]
      _ = (x &&& 255) &&& 192 := (Nat.and_assoc x 255 192).symm
      _ = x % 256 &&& 192 := by rw [and_255_eq_mod]
  rw [hx]
  have hlt : x % 256 < 256 := Nat.mod_lt _ (by norm_num)
  exact (by decide :
    ∀ y < 256, y &&& 192 = 0 ∨ y &&& 192 = 64 ∨ y &&& 192 = 128 ∨
      y &&& 192 = 192) _ hlt

/-- The parse-mask loop succeeds on all-valid entries and folds them in with
bitwise OR. -/
theorem parse_mask_loop_ok (vals : List Nat) :
    ∀ m, (∀ v ∈ vals, v < 8) →
      iqs269_parse_mask_loop vals m
        = .ok (vals.foldl (fun a v => a ||| (1 <<< v)) m) := by
  induction vals with
  | nil => intro m _; rfl
  | cons v rest ih =>
    intro m h
    have hv : v < 8 := h v (by simp)
    simp only [iqs269_parse_mask_loop, if_neg (by omega : ¬ v ≥ 8),
      List.foldl_cons]
    exact ih _ (fun x hx => h x (by simp [hx]))

/-- The parse-mask loop fails with `-EINVAL` as soon as any entry is 8 or
more. -/
theorem parse_mask_loop_err (vals : List Nat) :
    ∀ m, (∃ v ∈ vals, 8 ≤ v) →
      iqs269_parse_mask_loop vals m = .error (-22) := by
  induction vals with
  | nil =>
    rintro m ⟨v, hv, _⟩
    simp at hv
  | cons v rest ih =>
    rintro m ⟨w, hw, hge⟩
    by_cases hv : v ≥ 8
    · simp [iqs269_parse_mask_loop, if_pos hv]
    · rcases List.mem_cons.mp hw with rfl | hw2
      · omega
      · simp only [iqs269_parse_mask_loop, if_neg hv]
        exact ih _ ⟨w, hw2, hge⟩

/-- Structure of one `iqs269_dev_init` invocation on a bus whose failures
carry nonzero error codes: at most one image write is issued, exactly one
when the call succeeds, every image write carries the retained register
image, and on success the state is the input with `ati_current` set. -/
theorem dev_init_analysis (busErr : BusOp → Option Int) (s : DeviceState)
    (hbus : ∀ op, busErr op ≠ some 0) :
    List.countP isImageWrite (iqs269_dev_init busErr s).1 ≤ 1 ∧
    ((iqs269_dev_init busErr s).2.1 = 0 →
      List.countP isImageWrite (iqs269_dev_init busErr s).1 = 1) ∧
    (∀ img, BusOp.writeImage img ∈ (iqs269_dev_init busErr s).1 →
      img = s.sys_reg) ∧
    ((iqs269_dev_init busErr s).2.1 = 0 →
      (iqs269_dev_init busErr s).2.2 = { s with ati_current := true }) := by
  unfold iqs269_dev_init
  by_cases hc : s.otp_option = 0xD0 ∧ s.fw_num < 0x10
  · rw [if_pos hc]
    rcases htws : busErr BusOp.writeTws with _ | e
    · simp only [htws]
      rcases hhall : busErr (BusOp.writeHallUI s.hall_enable) with _ | e
      · simp only [hhall]
        rcases himg : busErr (BusOp.writeImage s.sys_reg) with _ | e
        · simp only [himg]
          refine ⟨by simp [isImageWrite], fun _ => by simp [isImageWrite],
            ?_, fun _ => trivial⟩
          intro img himem
          simp [List.mem_cons] at himem
          exact himem
        · simp only [himg]
          refine ⟨by simp [isImageWrite], fun _ => by simp [isImageWrite],
            ?_, fun he => absurd (he ▸ himg) (hbus _)⟩
          intro img himem
          simp [List.mem_cons] at himem
          exact himem
      · simp only [hhall]
        refine ⟨by simp [isImageWrite],
          fun he => absurd (he ▸ hhall) (hbus _),
          ?_, fun he => absurd (he ▸ hhall) (hbus _)⟩
        intro img himem
        simp [List.mem_cons] at himem
    · simp only [htws]
      refine ⟨by simp [isImageWrite],
        fun he => absurd (he ▸ htws) (hbus _),
        ?_, fun he => absurd (he ▸ htws) (hbus _)⟩
      intro img himem
      simp [List.mem_cons] at himem
  · rw [if_neg hc]
    rcases hhall : busErr (BusOp.writeHallUI s.hall_enable) with _ | e
    · simp only [hhall]
      rcases himg : busErr (BusOp.writeImage s.sys_reg) with _ | e
      · simp only [himg]
        refine ⟨by simp [isImageWrite], fun _ => by simp [isImageWrite],
          ?_, fun _ => trivial⟩
        intro img himem
        simp [List.mem_cons] at himem
        exact himem
      · simp only [himg]
        refine ⟨by simp [isImageWrite], fun _ => by simp [isImageWrite],
          ?_, fun he => absurd (he ▸ himg) (hbus _)⟩
        intro img himem
        simp [List.mem_cons] at himem
        exact himem
    · simp only [hhall]
      refine ⟨by simp [isImageWrite],
        fun he => absurd (he ▸ hhall) (hbus _),
        ?_, fun he => absurd (he ▸ hhall) (hbus _)⟩
      intro img himem
      simp [List.mem_cons] at himem

end Lemmas

/-- C3: encoding a pin-index list of length at most 8 whose entries are all
below 8 yields the bitwise OR of `BIT(v)` over the entries; a list with an
entry of 8 or more, or with more than 8 entries, fails with `-EINVAL`. -/
theorem parse_mask_spec (vals : List Nat) :
    (vals.length ≤ 8 → (∀ v ∈ vals, v < 8) →
      iqs269_parse_mask vals
        = .ok (vals.foldl (fun m v => m ||| (1 <<< v)) 0)) ∧
    (8 < vals.length ∨ (∃ v ∈ vals, 8 ≤ v) →
      iqs269_parse_mask vals = .error (-22)) := by
  constructor
  · intro hlen hall
    simp only [iqs269_parse_mask, if_neg (by omega : ¬ vals.length > 8)]
    exact parse_mask_loop_ok vals 0 hall
  · rintro (h | h)
    · simp only [iqs269_parse_mask, if_pos (by omega : vals.length > 8)]
    · by_cases hlen : vals.length > 8
      · simp only [iqs269_parse_mask, if_pos hlen]
      · simp only [iqs269_parse_mask, if_neg hlen]
        exact parse_mask_loop_err vals 0 h

/-- C3 witness: pins {0, 3, 3} encode (duplicate-safely) to 9 and the
out-of-range pin 8 is rejected. -/
theorem parse_mask_spec_witness :
    iqs269_parse_mask [0, 3, 3] = .ok 9 ∧
    iqs269_parse_mask [8] = .error (-22) := by
  constructor
  · have h := (parse_mask_spec [0, 3, 3]).1 (by decide) (by decide)
    simpa using h
  · exact (parse_mask_spec [8]).2 (Or.inr ⟨8, by decide, by decide⟩)

/-- C8: writing touch hysteresis `v` and deep-touch hysteresis `w`
(`v, w ≤ 15`) in either order yields the single byte `16 * w + v`, whose
low nibble is `v` and whose high nibble is `w`. -/
theorem hyst_nibbles (h v w : Nat) (hv : v ≤ 15) (hw : w ≤ 15) :
    iqs269_hyst_set_deep (iqs269_hyst_set_touch h v) w = 16 * w + v ∧
    iqs269_hyst_set_touch (iqs269_hyst_set_deep h w) v = 16 * w + v ∧
    (16 * w + v) % 16 = v ∧ (16 * w + v) / 16 = w := by
  have hv16 : v < 16 := by omega
  have hw16 : w < 16 := by omega
  have hlow : ∀ v' < 16, ∀ w' < 16, v' ||| (w' <<< 4) = 16 * w' + v' := by
    decide
  have hlow2 : ∀ v' < 16, ∀ w' < 16, (w' <<< 4) ||| v' = 16 * w' + v' := by
    decide
  have hs : ∀ w' < 16, (w' <<< 4) &&& 240 = w' <<< 4 := by decide
  refine ⟨?_, ?_, by omega, by omega⟩
  · unfold iqs269_hyst_set_deep iqs269_hyst_set_touch
    rw [and_or_mask_cancel _ _ (by decide) (and_15_of_lt hv16)]
    exact hlow v hv16 w hw16
  · unfold iqs269_hyst_set_touch iqs269_hyst_set_deep
    rw [and_or_mask_cancel _ _ (by decide) (hs w hw16)]
    exact hlow2 v hv16 w hw16

/-- C8 witness on the byte 0xAB with touch hysteresis 5 and deep-touch
hysteresis 9. -/
theorem hyst_nibbles_witness :
    iqs269_hyst_set_deep (iqs269_hyst_set_touch 0xAB 5) 9 = 16 * 9 + 5 ∧
    iqs269_hyst_set_touch (iqs269_hyst_set_deep 0xAB 9) 5 = 16 * 9 + 5 ∧
    (16 * 9 + 5) % 16 = 5 ∧ (16 * 9 + 5) / 16 = 9 :=
  hyst_nibbles 0xAB 5 9 (by decide) (by decide)

/-- C9 counterexample: on firmware 2 (older than the 0x10 threshold) the
tap timeout is converted with divisor 4 instead of 16, but the swipe
threshold 100 is stored verbatim on both old and new firmware — its
encoding has no firmware-revision-dependent step size, contrary to the
claim that the swipe threshold is converted like the two timeouts. -/
theorem thresh_swipe_unscaled_counterexample :
    iqs269_timeout_tap_encode 2 100 = .ok 25 ∧
    iqs269_timeout_tap_encode 16 100 = .ok 6 ∧
    iqs269_thresh_swipe_encode 2 100 = .ok 100 ∧
    iqs269_thresh_swipe_encode 16 100 = .ok 100 ∧
    iqs269_thresh_swipe_encode 2 100 = iqs269_thresh_swipe_encode 16 100 :=
  ⟨rfl, rfl, rfl, rfl, rfl⟩

/-- C9 amended: the tap and swipe timeouts are converted with the
firmware-revision-derived divisor `16 / scale` — scale 4 (so divisor 4 and
validity bound 1020) on firmware older than 0x10, divisor 16 and bound 4080
otherwise — while the swipe threshold is stored unscaled, identically for
every firmware revision. -/
theorem tap_swipe_fw_scaling (fw val : Nat) :
    (fw < 16 → val ≤ 1020 →
      iqs269_timeout_tap_encode fw val = .ok (val / 4) ∧
      iqs269_timeout_swipe_encode fw val = .ok (val / 4)) ∧
    (16 ≤ fw → val ≤ 4080 →
      iqs269_timeout_tap_encode fw val = .ok (val / 16) ∧
      iqs269_timeout_swipe_encode fw val = .ok (val / 16)) ∧
    (val ≤ 255 → iqs269_thresh_swipe_encode fw val = .ok val) := by
  refine ⟨?_, ?_, ?_⟩
  · intro hfw hval
    have h4 : iqs269_tap_swipe_scale fw = 4 := by
      simp [iqs269_tap_swipe_scale, hfw]
    simp only [iqs269_timeout_tap_encode, iqs269_timeout_swipe_encode, h4]
    norm_num
    exact fun hgt => absurd hgt (by omega)
  · intro hfw hval
    have h1 : iqs269_tap_swipe_scale fw = 1 := by
      simp [iqs269_tap_swipe_scale]
      omega
    simp only [iqs269_timeout_tap_encode, iqs269_timeout_swipe_encode, h1]
    norm_num
    exact fun hgt => absurd hgt (by omega)
  · intro hval
    simp only [iqs269_thresh_swipe_encode, if_neg (by omega : ¬ val > 255)]

/-- C9 amended witness at firmware 2 / value 100, firmware 16 / value 160
and firmware 7 / threshold 42. -/
theorem tap_swipe_fw_scaling_witness :
    iqs269_timeout_tap_encode 2 100 = .ok (100 / 4) ∧
    iqs269_timeout_swipe_encode 16 160 = .ok (160 / 16) ∧
    iqs269_thresh_swipe_encode 7 42 = .ok 42 :=
  ⟨((tap_swipe_fw_scaling 2 100).1 (by decide) (by decide)).1,
    ((tap_swipe_fw_scaling 16 160).2.1 (by decide) (by decide)).2,
    (tap_swipe_fw_scaling 7 42).2.2 (by decide)⟩

/-- Key-value extraction distributes over concatenation of event lists. -/
theorem keyVals_append (l1 l2 : List Event) (d : Dev) (c : Nat) :
    keyVals (l1 ++ l2) d c = keyVals l1 d c ++ keyVals l2 d c := by
  unfold keyVals
  rw [List.filterMap_append]

/-- A flat-mapped event list in which every block has no key values for
`(d, c)` has none overall. -/
theorem keyVals_flatMap_nil {α : Type} (l : List α) (f : α → List Event)
    (d : Dev) (c : Nat) (h : ∀ a ∈ l, keyVals (f a) d c = []) :
    keyVals (l.flatMap f) d c = [] := by
  induction l with
  | nil => rfl
  | cons a t ih =>
    rw [List.flatMap_cons, keyVals_append, h a (by simp),
      ih (fun x hx => h x (by simp [hx]))]
    rfl

/-- One keypad-loop channel emits no key values on a non-keypad device. -/
theorem keyVals_keypad_chan (s : DeviceState) (i j st : Nat) (d : Dev)
    (hd : d ≠ .keypad) (c : Nat) :
    keyVals (iqs269_keypad_event_chan s i j st) d c = [] := by
  have hdk : Dev.keypad ≠ d := Ne.symm hd
  unfold iqs269_keypad_event_chan
  by_cases h7 : j = 7 <;> by_cases h6 : j = 6 <;>
    by_cases hh : s.hall_enable <;>
    by_cases he : (s.switches.getD i ⟨0, false⟩).enabled <;>
    simp [h7, h6, hh, he, hdk, keyVals]

/-- The whole keypad loop emits no key values on a non-keypad device. -/
theorem keyVals_keypad_events (s : DeviceState) (flags : Flags) (d : Dev)
    (hd : d ≠ .keypad) (c : Nat) :
    keyVals (iqs269_keypad_events s flags) d c = [] := by
  unfold iqs269_keypad_events
  refine keyVals_flatMap_nil _ _ _ _ (fun i _ => ?_)
  refine keyVals_flatMap_nil _ _ _ _ (fun j _ => ?_)
  exact keyVals_keypad_chan s i j _ d hd c

/-- A slider-loop pass emits no key values on any other device. -/
theorem keyVals_slider_events_ne (s : DeviceState) (sliderX : List Nat)
    (flags : Flags) (k : Nat) (d : Dev) (c : Nat) (hd : d ≠ sliderDev k) :
    keyVals (iqs269_slider_events s sliderX flags k) d c = [] := by
  have hdk : sliderDev k ≠ d := Ne.symm hd
  have hr : List.range 4 = [0, 1, 2, 3] := rfl
  unfold iqs269_slider_events
  rcases htype : iqs269_slider_type s k with _ | _ | _ <;>
    simp only [htype]
  · rfl
  · by_cases hm : (flags.gesture >>> (4 * k)) &&& 13 ≠ 0 <;>
      simp [hm, hr, keyVals, keyVals_append, hdk]
  · by_cases hst :
      flags.states.getD 2 0 &&& s.sys_reg.slider_select.getD k 0 ≠ 0 <;>
      simp [hst, keyVals, hdk]

/-- In gesture-key mode, a gesture byte showing only the tap bit for slider
`k` yields exactly a press then a synthesized release of the tap-mapped
code. -/
theorem keyVals_slider_tap (s : DeviceState) (sliderX : List Nat)
    (flags : Flags) (k : Nat) (hkey : iqs269_slider_type s k = .keySl)
    (hg : flags.gesture >>> (4 * k) = 1)
    (h01 : (s.sl_code.getD k []).getD 0 0 ≠ (s.sl_code.getD k []).getD 1 0)
    (h02 : (s.sl_code.getD k []).getD 0 0 ≠ (s.sl_code.getD k []).getD 2 0)
    (h03 : (s.sl_code.getD k []).getD 0 0 ≠ (s.sl_code.getD k []).getD 3 0) :
    keyVals (iqs269_slider_events s sliderX flags k) (sliderDev k)
      ((s.sl_code.getD k []).getD 0 0) = [true, false] := by
  have hr : List.range 4 = [0, 1, 2, 3] := rfl
  simp only [List.getD_eq_getElem?_getD] at h01 h02 h03 ⊢
  unfold iqs269_slider_events
  simp only [hkey, hg]
  rw [if_pos (by decide : (1 : Nat) &&& 13 ≠ 0)]
  simp [hr, keyVals, keyVals_append, Ne.symm h01, Ne.symm h02, Ne.symm h03]

/-- In gesture-key mode, a gesture byte showing only the hold bit for slider
`k` yields exactly a press of the hold-mapped code and no release. -/
theorem keyVals_slider_hold (s : DeviceState) (sliderX : List Nat)
    (flags : Flags) (k : Nat) (hkey : iqs269_slider_type s k = .keySl)
    (hg : flags.gesture >>> (4 * k) = 2)
    (h01 : (s.sl_code.getD k []).getD 0 0 ≠ (s.sl_code.getD k []).getD 1 0)
    (h12 : (s.sl_code.getD k []).getD 1 0 ≠ (s.sl_code.getD k []).getD 2 0)
    (h13 : (s.sl_code.getD k []).getD 1 0 ≠ (s.sl_code.getD k []).getD 3 0) :
    keyVals (iqs269_slider_events s sliderX flags k) (sliderDev k)
      ((s.sl_code.getD k []).getD 1 0) = [true] := by
  have hr : List.range 4 = [0, 1, 2, 3] := rfl
  simp only [List.getD_eq_getElem?_getD] at h01 h12 h13 ⊢
  unfold iqs269_slider_events
  simp only [hkey, hg]
  rw [if_neg (by decide : ¬ (2 : Nat) &&& 13 ≠ 0)]
  simp [hr, keyVals, keyVals_append, h01, Ne.symm h12, Ne.symm h13]

/-- C2: for a slider in gesture-key mode with distinct mapped codes, a clean
snapshot whose gesture byte carries only the slider's tap bit makes the
decode engine report, in order within the one cycle, a press and then a
synthesized release of the tap-mapped code; a snapshot carrying only the
hold bit reports only a press of the hold-mapped code with no release. -/
theorem slider_gesture_momentary (busErr : BusOp → Option Int)
    (sliderX : List Nat) (s : DeviceState) (k : Nat) (hk2 : k < 2)
    (hkey : iqs269_slider_type s k = .keySl)
    (hbusr : busErr BusOp.readSliderX = none)
    (h01 : (s.sl_code.getD k []).getD 0 0 ≠ (s.sl_code.getD k []).getD 1 0)
    (h02 : (s.sl_code.getD k []).getD 0 0 ≠ (s.sl_code.getD k []).getD 2 0)
    (h03 : (s.sl_code.getD k []).getD 0 0 ≠ (s.sl_code.getD k []).getD 3 0)
    (h12 : (s.sl_code.getD k []).getD 1 0 ≠ (s.sl_code.getD k []).getD 2 0)
    (h13 : (s.sl_code.getD k []).getD 1 0 ≠ (s.sl_code.getD k []).getD 3 0) :
    (∀ flags : Flags, flags.system &&& 32768 = 0 →
      flags.system &&& 1024 = 0 → flags.gesture = 1 <<< (4 * k) →
      keyVals (iqs269_report busErr sliderX s flags).2.1 (sliderDev k)
        ((s.sl_code.getD k []).getD 0 0) = [true, false]) ∧
    (∀ flags : Flags, flags.system &&& 32768 = 0 →
      flags.system &&& 1024 = 0 → flags.gesture = 2 <<< (4 * k) →
      keyVals (iqs269_report busErr sliderX s flags).2.1 (sliderDev k)
        ((s.sl_code.getD k []).getD 1 0) = [true]) := by
  constructor
  · intro flags h15 h10 hg
    have hgk : flags.gesture >>> (4 * k) = 1 := by
      rw [hg]
      interval_cases k <;> decide
    have hcommon :
        keyVals (iqs269_slider_events s sliderX flags 0 ++
            iqs269_slider_events s sliderX flags 1 ++
            iqs269_keypad_events s flags ++ [Event.sync Dev.keypad])
          (sliderDev k) ((s.sl_code.getD k []).getD 0 0)
          = [true, false] := by
      rw [keyVals_append, keyVals_append, keyVals_append]
      interval_cases k
      · rw [keyVals_slider_tap s sliderX flags 0 hkey hgk h01 h02 h03,
          keyVals_slider_events_ne s sliderX flags 1 (sliderDev 0)
            ((s.sl_code.getD 0 []).getD 0 0) (by decide),
          keyVals_keypad_events s flags (sliderDev 0) (by decide)
            ((s.sl_code.getD 0 []).getD 0 0)]
        simp [keyVals]
      · rw [keyVals_slider_events_ne s sliderX flags 0 (sliderDev 1)
            ((s.sl_code.getD 1 []).getD 0 0) (by decide),
          keyVals_slider_tap s sliderX flags 1 hkey hgk h01 h02 h03,
          keyVals_keypad_events s flags (sliderDev 1) (by decide)
            ((s.sl_code.getD 1 []).getD 0 0)]
        simp [keyVals]
    simp only [iqs269_report,
      if_neg (show ¬flags.system &&& 32768 ≠ 0 by simp [h15]),
      if_neg (show ¬flags.system &&& 1024 ≠ 0 by simp [h10])]
    by_cases hraw : iqs269_slider_type s 0 = SliderId.rawSl ∨
        iqs269_slider_type s 1 = SliderId.rawSl
    · rw [if_pos hraw, hbusr]
      exact hcommon
    · rw [if_neg hraw]
      exact hcommon
  · intro flags h15 h10 hg
    have hgk : flags.gesture >>> (4 * k) = 2 := by
      rw [hg]
      interval_cases k <;> decide
    have hcommon :
        keyVals (iqs269_slider_events s sliderX flags 0 ++
            iqs269_slider_events s sliderX flags 1 ++
            iqs269_keypad_events s flags ++ [Event.sync Dev.keypad])
          (sliderDev k) ((s.sl_code.getD k []).getD 1 0) = [true] := by
      rw [keyVals_append, keyVals_append, keyVals_append]
      interval_cases k
      · rw [keyVals_slider_hold s sliderX flags 0 hkey hgk h01 h12 h13,
          keyVals_slider_events_ne s sliderX flags 1 (sliderDev 0)
            ((s.sl_code.getD 0 []).getD 1 0) (by decide),
          keyVals_keypad_events s flags (sliderDev 0) (by decide)
            ((s.sl_code.getD 0 []).getD 1 0)]
        simp [keyVals]
      · rw [keyVals_slider_events_ne s sliderX flags 0 (sliderDev 1)
            ((s.sl_code.getD 1 []).getD 1 0) (by decide),
          keyVals_slider_hold s sliderX flags 1 hkey hgk h01 h12 h13,
          keyVals_keypad_events s flags (sliderDev 1) (by decide)
            ((s.sl_code.getD 1 []).getD 1 0)]
        simp [keyVals]
    simp only [iqs269_report,
      if_neg (show ¬flags.system &&& 32768 ≠ 0 by simp [h15]),
      if_neg (show ¬flags.system &&& 1024 ≠ 0 by simp [h10])]
    by_cases hraw : iqs269_slider_type s 0 = SliderId.rawSl ∨
        iqs269_slider_type s 1 = SliderId.rawSl
    · rw [if_pos hraw, hbusr]
      exact hcommon
    · rw [if_neg hraw]
      exact hcommon

/-- C2 witness: slider 0 of the sample state (codes 30, 31, 32, 33): the
tap-only snapshot yields press-then-release of code 30; the hold-only
snapshot yields a lone press of code 31. -/
theorem slider_gesture_momentary_witness :
    keyVals (iqs269_report busOk [] state0 ⟨0, 1, [0, 0, 0, 0]⟩).2.1
      (sliderDev 0) 30 = [true, false] ∧
    keyVals (iqs269_report busOk [] state0 ⟨0, 2, [0, 0, 0, 0]⟩).2.1
      (sliderDev 0) 31 = [true] := by
  have h := slider_gesture_momentary busOk [] state0 0 (by decide)
    (by decide) rfl (by decide) (by decide) (by decide) (by decide)
    (by decide)
  exact ⟨h.1 ⟨0, 1, [0, 0, 0, 0]⟩ rfl rfl rfl,
    h.2 ⟨0, 2, [0, 0, 0, 0]⟩ rfl rfl rfl⟩

/-- C1: on a snapshot with the `SHOW_RESET` bit (`BIT(15)`) set, the decode
engine emits zero input events, issues exactly the bus operations of one
`iqs269_dev_init` invocation — at most one full register-image write, exactly
one when re-initialization succeeds, always carrying the retained register
image — and returns `iqs269_dev_init`'s error code to the caller. -/
theorem report_reset_recovery (busErr : BusOp → Option Int)
    (sliderX : List Nat) (s : DeviceState) (flags : Flags)
    (hbus : ∀ op, busErr op ≠ some 0)
    (hreset : flags.system &&& 32768 ≠ 0) :
    (iqs269_report busErr sliderX s flags).2.1 = [] ∧
    (iqs269_report busErr sliderX s flags).1 = (iqs269_dev_init busErr s).1 ∧
    (iqs269_report busErr sliderX s flags).2.2.1
      = (iqs269_dev_init busErr s).2.1 ∧
    (iqs269_report busErr sliderX s flags).2.2.2
      = (iqs269_dev_init busErr s).2.2 ∧
    List.countP isImageWrite (iqs269_report busErr sliderX s flags).1 ≤ 1 ∧
    ((iqs269_report busErr sliderX s flags).2.2.1 = 0 →
      List.countP isImageWrite (iqs269_report busErr sliderX s flags).1
        = 1) ∧
    (∀ img, BusOp.writeImage img ∈ (iqs269_report busErr sliderX s flags).1 →
      img = s.sys_reg) := by
  have hd := dev_init_analysis busErr s hbus
  simp only [iqs269_report, if_pos hreset]
  exact ⟨trivial, trivial, trivial, trivial, hd.1, hd.2.1, hd.2.2.1⟩

/-- C1 witness: a reset snapshot against the sample state on a fully
successful bus emits no events and performs exactly one image write. -/
theorem report_reset_recovery_witness :
    (iqs269_report busOk [] state0 ⟨32768, 0, [0, 0, 0, 0]⟩).2.1 = [] ∧
    List.countP isImageWrite
      (iqs269_report busOk [] state0 ⟨32768, 0, [0, 0, 0, 0]⟩).1 = 1 := by
  have h := report_reset_recovery busOk [] state0 ⟨32768, 0, [0, 0, 0, 0]⟩
    (fun op => by simp [busOk]) (by decide)
  exact ⟨h.1, h.2.2.2.2.2.1 rfl⟩

/-- C4: for every channel index below 8 and every target in [0, 2016],
`iqs269_ati_target_set` followed by `iqs269_ati_target_get` returns
`target - target % 32`; the round trip is the identity exactly on multiples
of 32. -/
theorem ati_target_round_trip (s : DeviceState) (ch target : Nat)
    (hch : ch < 8) (ht : target ≤ 2016) :
    (iqs269_ati_target_get (iqs269_ati_target_set s ch target).2 ch).2.2
      = some (target - target % 32) ∧
    ((iqs269_ati_target_get (iqs269_ati_target_set s ch target).2 ch).2.2
      = some target ↔ target % 32 = 0) := by
  have hdiv : target / 32 < 64 := by omega
  simp only [iqs269_ati_target_set, iqs269_ati_target_get, dif_pos hch,
    if_neg (by omega : ¬ target > 2016), Function.update_same]
  rw [and_or_mask_cancel _ _ (by decide) (and_63_of_lt hdiv)]
  constructor
  · simp only [Option.some.injEq]
    omega
  · simp only [Option.some.injEq]
    omega

/-- C4 witness at channel 3 and target 100 (`100 - 100 % 32 = 96`). -/
theorem ati_target_round_trip_witness :
    (iqs269_ati_target_get (iqs269_ati_target_set state0 3 100).2 3).2.2
      = some 96 ∧
    ¬((iqs269_ati_target_get (iqs269_ati_target_set state0 3 100).2 3).2.2
      = some 100) := by
  have h := ati_target_round_trip state0 3 100 (by decide) (by decide)
  exact ⟨h.1, fun hc => by simpa using h.2.mp hc⟩

/-- C5: for every channel index below 8, setting an ATI base in
{75, 100, 150, 200} succeeds and reads back exactly; any other base value
fails with `-EINVAL` and leaves the state untouched. -/
theorem ati_base_round_trip (s : DeviceState) (ch base : Nat) (hch : ch < 8) :
    (base = 75 ∨ base = 100 ∨ base = 150 ∨ base = 200 →
      (iqs269_ati_base_set s ch base).1 = 0 ∧
      (iqs269_ati_base_get (iqs269_ati_base_set s ch base).2 ch).2.2
        = some base) ∧
    (base ≠ 75 ∧ base ≠ 100 ∧ base ≠ 150 ∧ base ≠ 200 →
      iqs269_ati_base_set s ch base = (-22, s)) := by
  constructor
  · rintro (rfl | rfl | rfl | rfl)
    · simp only [iqs269_ati_base_set, iqs269_ati_base_get, dif_pos hch]
      norm_num [Function.update_same]
      rw [Nat.and_assoc, (by decide : (65343 : Nat) &&& 192 = 0),
        Nat.and_zero]
    · simp only [iqs269_ati_base_set, iqs269_ati_base_get, dif_pos hch]
      norm_num [Function.update_same]
      rw [and_or_mask_cancel _ _ (by decide) (by decide)]
    · simp only [iqs269_ati_base_set, iqs269_ati_base_get, dif_pos hch]
      norm_num [Function.update_same]
      rw [and_or_mask_cancel _ _ (by decide) (by decide)]
    · simp only [iqs269_ati_base_set, iqs269_ati_base_get, dif_pos hch]
      norm_num [Function.update_same]
      rw [and_or_mask_cancel _ _ (by decide) (by decide)]
  · rintro ⟨h75, h100, h150, h200⟩
    simp only [iqs269_ati_base_set, dif_pos hch, if_neg h75, if_neg h100,
      if_neg h150, if_neg h200]

/-- C5 witness at channel 0 with base 150, and failing base 120. -/
theorem ati_base_round_trip_witness :
    (iqs269_ati_base_set state0 0 150).1 = 0 ∧
    (iqs269_ati_base_get (iqs269_ati_base_set state0 0 150).2 0).2.2
      = some 150 ∧
    iqs269_ati_base_set state0 0 120 = (-22, state0) := by
  have h1 := (ati_base_round_trip state0 0 150 (by decide)).1
    (Or.inr (Or.inr (Or.inl rfl)))
  have h2 := (ati_base_round_trip state0 0 120 (by decide)).2
    (by refine ⟨?_, ?_, ?_, ?_⟩ <;> decide)
  exact ⟨h1.1, h1.2, h2⟩

/-- C6: each ATI setter rejects a channel index of 8 or more, a mode above
3, a target above 2016, or a base outside {75, 100, 150, 200} with
`-EINVAL`, returning the device state completely unchanged because all
validation precedes any mutation. -/
theorem ati_setters_validate (s : DeviceState) (ch v : Nat) :
    (8 ≤ ch ∨ 3 < v → iqs269_ati_mode_set s ch v = (-22, s)) ∧
    (8 ≤ ch ∨ (v ≠ 75 ∧ v ≠ 100 ∧ v ≠ 150 ∧ v ≠ 200) →
      iqs269_ati_base_set s ch v = (-22, s)) ∧
    (8 ≤ ch ∨ 2016 < v → iqs269_ati_target_set s ch v = (-22, s)) := by
  refine ⟨?_, ?_, ?_⟩
  · rintro (h | h)
    · simp only [iqs269_ati_mode_set, dif_neg (by omega : ¬ ch < 8)]
    · by_cases hch : ch < 8
      · simp only [iqs269_ati_mode_set, dif_pos hch,
          if_pos (by omega : v > 3)]
      · simp only [iqs269_ati_mode_set, dif_neg hch]
  · rintro (h | ⟨h75, h100, h150, h200⟩)
    · simp only [iqs269_ati_base_set, dif_neg (by omega : ¬ ch < 8)]
    · by_cases hch : ch < 8
      · simp only [iqs269_ati_base_set, dif_pos hch, if_neg h75,
          if_neg h100, if_neg h150, if_neg h200]
      · simp only [iqs269_ati_base_set, dif_neg hch]
  · rintro (h | h)
    · simp only [iqs269_ati_target_set, dif_neg (by omega : ¬ ch < 8)]
    · by_cases hch : ch < 8
      · simp only [iqs269_ati_target_set, dif_pos hch,
          if_pos (by omega : v > 2016)]
      · simp only [iqs269_ati_target_set, dif_neg hch]

/-- C6 witness: channel 8 is rejected by all three setters with the state
unchanged, as are mode 4, base 90 and target 2017 on channel 0. -/
theorem ati_setters_validate_witness :
    iqs269_ati_mode_set state0 8 0 = (-22, state0) ∧
    iqs269_ati_base_set state0 8 75 = (-22, state0) ∧
    iqs269_ati_target_set state0 8 0 = (-22, state0) ∧
    iqs269_ati_mode_set state0 0 4 = (-22, state0) ∧
    iqs269_ati_base_set state0 0 90 = (-22, state0) ∧
    iqs269_ati_target_set state0 0 2017 = (-22, state0) := by
  refine ⟨(ati_setters_validate state0 8 0).1 (Or.inl (by decide)),
    ((ati_setters_validate state0 8 75).2).1 (Or.inl (by decide)),
    ((ati_setters_validate state0 8 0).2).2 (Or.inl (by decide)),
    (ati_setters_validate state0 0 4).1 (Or.inr (by decide)),
    ((ati_setters_validate state0 0 90).2).1
      (Or.inr (by refine ⟨?_, ?_, ?_, ?_⟩ <;> decide)),
    ((ati_setters_validate state0 0 2017).2).2 (Or.inr (by decide))⟩

/-- C7: every successful ATI setter call returns 0 and unconditionally
clears `ati_current`, regardless of whether the stored value changes. -/
theorem ati_setters_mark_stale (s : DeviceState) (ch v : Nat) (hch : ch < 8) :
    (v ≤ 3 → (iqs269_ati_mode_set s ch v).1 = 0 ∧
      (iqs269_ati_mode_set s ch v).2.ati_current = false) ∧
    (v = 75 ∨ v = 100 ∨ v = 150 ∨ v = 200 →
      (iqs269_ati_base_set s ch v).1 = 0 ∧
      (iqs269_ati_base_set s ch v).2.ati_current = false) ∧
    (v ≤ 2016 → (iqs269_ati_target_set s ch v).1 = 0 ∧
      (iqs269_ati_target_set s ch v).2.ati_current = false) := by
  refine ⟨?_, ?_, ?_⟩
  · intro hv
    simp only [iqs269_ati_mode_set, dif_pos hch, if_neg (by omega : ¬ v > 3)]
    exact ⟨by trivial, by trivial⟩
  · rintro (rfl | rfl | rfl | rfl) <;>
    · simp only [iqs269_ati_base_set, dif_pos hch]
      norm_num
  · intro hv
    simp only [iqs269_ati_target_set, dif_pos hch,
      if_neg (by omega : ¬ v > 2016)]
    exact ⟨by trivial, by trivial⟩

/-- C7 witness: writing mode 0 to channel 0 of the sample state (whose
`engine_a` already holds mode 0) still succeeds and clears the staleness
flag. -/
theorem ati_setters_mark_stale_witness :
    (iqs269_ati_mode_set state0 0 0).1 = 0 ∧
    (iqs269_ati_mode_set state0 0 0).2.ati_current = false ∧
    (iqs269_ati_target_set state0 0 0).1 = 0 ∧
    (iqs269_ati_target_set state0 0 0).2.ati_current = false := by
  have h := ati_setters_mark_stale state0 0 0 (by decide)
  have h1 := h.1 (by decide)
  have h3 := h.2.2 (by decide)
  exact ⟨h1.1, h1.2, h3.1, h3.2⟩

/-- C10: for every channel index below 8 all three ATI getters succeed
(return 0) and return the device state structurally unchanged; in
particular `iqs269_ati_base_get` never hits its default error branch
because the two-bit base field has exactly four mapped patterns. -/
theorem ati_getters_no_mutation (s : DeviceState) (ch : Nat) (hch : ch < 8) :
    (iqs269_ati_mode_get s ch).1 = 0 ∧
    (iqs269_ati_mode_get s ch).2.1 = s ∧
    (iqs269_ati_base_get s ch).1 = 0 ∧
    (iqs269_ati_base_get s ch).2.1 = s ∧
    (iqs269_ati_target_get s ch).1 = 0 ∧
    (iqs269_ati_target_get s ch).2.1 = s := by
  refine ⟨?_, ?_, ?_, ?_, ?_, ?_⟩ <;>
    simp only [iqs269_ati_mode_get, iqs269_ati_base_get,
      iqs269_ati_target_get, dif_pos hch]
  · rcases and_192_cases ((s.sys_reg.ch_reg ⟨ch, hch⟩).engine_b) with
      h | h | h | h <;> rw [h]
  · rcases and_192_cases ((s.sys_reg.ch_reg ⟨ch, hch⟩).engine_b) with
      h | h | h | h <;> rw [h]

/-- C10 witness at channel 5 of the sample state. -/
theorem ati_getters_no_mutation_witness :
    (iqs269_ati_mode_get state0 5).1 = 0 ∧
    (iqs269_ati_mode_get state0 5).2.1 = state0 ∧
    (iqs269_ati_base_get state0 5).1 = 0 ∧
    (iqs269_ati_base_get state0 5).2.1 = state0 ∧
    (iqs269_ati_target_get state0 5).1 = 0 ∧
    (iqs269_ati_target_get state0 5).2.1 = state0 :=
  ati_getters_no_mutation state0 5 (by decide)

end IQS269
